import Mathlib

/-!
# Verification of the geospatial import/query pipeline

Shallow embedding of `src/mongodb/geo_importer.py` and
`src/mongodb/geo_query.py`.

Python floats are modelled as `PyF`: either a finite rational or NaN
(the adapters perform no arithmetic on coordinates, so exact rationals
are a faithful carrier for the float values that occur).  Raw field
values as seen by an adapter are modelled by `RawVal`, covering the
cases that drive `float(...)`: a missing field / `None`, a numeric
value (or numeric string), a NaN value, and a non-numeric string.

The MongoDB store itself is out of scope of the repository (the spec
treats it as an abstract geospatial-capable store); where a claim
depends on store query semantics, the store is modelled from the spec
as a list of documents with the interface semantics of §4.4, and the
query *construction* (polygon ring, limit, filters) is taken from the
source.
-/

namespace Bertron

/-- A Python float value reaching an adapter: finite or NaN. -/
inductive PyF where
  | fin (q : ℚ)
  | nan
deriving DecidableEq, Repr

/-- A raw field value as `float(...)` sees it. -/
inductive RawVal where
  /-- field absent; `dict.get` / `Series.get` yields `None`. -/
  | missing
  /-- a numeric value or numeric string; `float` returns `q`. -/
  | numStr (q : ℚ)
  /-- a NaN float (e.g. an empty CSV cell parsed by pandas). -/
  | nanVal
  /-- a non-numeric string; `float` raises `ValueError`. -/
  | badStr
deriving DecidableEq, Repr

/-- `float(v)`: `TypeError` on `None`, `ValueError` on a non-numeric
string, otherwise the float value (possibly NaN). -/
def pyFloat : RawVal → Except Unit PyF
  | .missing => .error ()
  | .badStr => .error ()
  | .numStr q => .ok (.fin q)
  | .nanVal => .ok .nan

/-- Python truthiness of a float: `bool(0.0) = False`, every other
float — NaN included — is truthy. -/
def PyF.truthy : PyF → Bool
  | .fin q => decide (q ≠ 0)
  | .nan => true

/-- `pd.isna` on a float: true exactly on NaN. -/
def PyF.isna : PyF → Bool
  | .fin _ => false
  | .nan => true

/-- A metadata value: a (possibly absent) string or integer. -/
inductive MetaVal where
  | s (v : Option String)
  | i (v : Option Int)
deriving DecidableEq, Repr

/-- A document built by an adapter and persisted to the `locations`
collection.  `coordinates` is the GeoJSON point `[longitude, latitude]`,
kept in that order. -/
structure Doc where
  dataset_id : Option String
  system_name : String
  coordinates : PyF × PyF
  metadata : List (String × MetaVal)
deriving DecidableEq, Repr

/-- Validity of a coordinate pair in the words of the spec: both values
finite and within range (longitude ∈ [-180, 180], latitude ∈ [-90, 90]).
Used only to compare the spec's claim with what the code does. -/
def specValidCoords : PyF × PyF → Prop
  | (.fin lo, .fin la) => -180 ≤ lo ∧ lo ≤ 180 ∧ -90 ≤ la ∧ la ≤ 90
  | _ => False

instance : DecidablePred specValidCoords := fun p => by
  cases p with
  | mk a b => cases a <;> cases b <;> simp [specValidCoords] <;> infer_instance

/-! ## Source adapters (geo_importer.py) -/

/-- One item of `latlon_project_ids.json`. -/
structure ProposalItem where
  latitude : RawVal
  longitude : RawVal
  proposal_id : Option String
  sampling_set : Option String
  description : Option String
deriving DecidableEq, Repr

/-- One row of `ess_dive_packages.csv`.  `row_id` is the unnamed index
column `Unnamed: 0`. -/
structure EssDiveRow where
  centroid_latitude : RawVal
  centroid_longitude : RawVal
  package_id : Option String
  row_id : RawVal
deriving DecidableEq, Repr

/-- One row of `nmdc_biosample_geo_coordinates.csv`. -/
structure NmdcRow where
  latitude : RawVal
  longitude : RawVal
  biosample_id : Option String
deriving DecidableEq, Repr

/-- Loop body of `MongoDBImporter.import_proposal_locations`:
`float` both fields (a `ValueError`/`TypeError` is caught and the item
skipped), skip when `not (latitude and longitude)` — i.e. when either
float is falsy — and otherwise build the document with coordinates
`[longitude, latitude]` and `system_name = "EMSL"`. -/
def adaptProposal (item : ProposalItem) : Option Doc :=
  match pyFloat item.latitude with
  | .error _ => none
  | .ok latitude =>
    match pyFloat item.longitude with
    | .error _ => none
    | .ok longitude =>
      if ¬(latitude.truthy ∧ longitude.truthy) then none
      else some
        { dataset_id := item.proposal_id
          system_name := "EMSL"
          coordinates := (longitude, latitude)
          metadata :=
            [("sampling_set", .s item.sampling_set),
             ("description", .s item.description),
             ("source", .s (some "project_locations"))] }

/-- `int(row.get('Unnamed: 0')) if not pd.isna(row.get('Unnamed: 0'))
else None`: `None`/NaN give `None`; a numeric value is truncated toward
zero; a non-numeric string raises (`ValueError`), skipping the row. -/
def essRowId : RawVal → Except Unit (Option Int)
  | .missing => .ok none
  | .nanVal => .ok none
  | .numStr q => .ok (some (q.num.tdiv q.den))
  | .badStr => .error ()

/-- Loop body of `MongoDBImporter.import_ess_dive_packages`: `float`
both centroid fields (exceptions caught, row skipped), skip when either
is NaN (`pd.isna`), then build the document; building evaluates
`essRowId`, whose exception is also caught and skips the row. -/
def adaptEssDive (row : EssDiveRow) : Option Doc :=
  match pyFloat row.centroid_latitude with
  | .error _ => none
  | .ok latitude =>
    match pyFloat row.centroid_longitude with
    | .error _ => none
    | .ok longitude =>
      if latitude.isna ∨ longitude.isna then none
      else
        match essRowId row.row_id with
        | .error _ => none
        | .ok rid => some
            { dataset_id := row.package_id
              system_name := "ESSDIVE"
              coordinates := (longitude, latitude)
              metadata :=
                [("source", .s (some "ESS-DIVE")),
                 ("row_id", .i rid)] }

/-- Loop body of `MongoDBImporter.import_nmdc_biosamples`: `float` both
fields (exceptions caught, row skipped), skip when either is NaN,
otherwise build the document with `system_name = "NMDC"`. -/
def adaptNmdc (row : NmdcRow) : Option Doc :=
  match pyFloat row.latitude with
  | .error _ => none
  | .ok latitude =>
    match pyFloat row.longitude with
    | .error _ => none
    | .ok longitude =>
      if latitude.isna ∨ longitude.isna then none
      else some
        { dataset_id := row.biosample_id
          system_name := "NMDC"
          coordinates := (longitude, latitude)
          metadata := [("source", .s (some "NMDC-Biosample"))] }

/-- The document batch `import_proposal_locations` builds from the
parsed JSON array: the per-item loop appends at most one document per
item, `continue`-ing past every skipped one. -/
def importProposalDocs (data : List ProposalItem) : List Doc :=
  data.filterMap adaptProposal

/-- The document batch `import_ess_dive_packages` builds from the CSV
rows. -/
def importEssDiveDocs (rows : List EssDiveRow) : List Doc :=
  rows.filterMap adaptEssDive

/-- The document batch `import_nmdc_biosamples` builds from the CSV
rows. -/
def importNmdcDocs (rows : List NmdcRow) : List Doc :=
  rows.filterMap adaptNmdc

/-! ## Ingestion pipeline `main` (geo_importer.py) -/

/-- The environment `geo_importer.main` runs in: whether the data
directory exists, the `validate_file` verdict for each of the five
configured source files, the outcome each importer method would produce
when invoked (`.ok n` = it returned a count, `.error ()` = it raised),
and the two CLI flags. -/
structure ImportEnv where
  dataDirExists : Bool
  proposalValid : Bool
  essDiveValid : Bool
  nmdcValid : Bool
  jgiBiosampleValid : Bool
  jgiOrganismValid : Bool
  proposalRun : Except Unit Nat
  essDiveRun : Except Unit Nat
  nmdcRun : Except Unit Nat
  jgiBiosampleRun : Except Unit Nat
  jgiOrganismRun : Except Unit Nat
  skipLargeFiles : Bool
deriving Repr

/-- The `try/except` around each per-source import in `main`: a raised
exception is caught and logged, contributing nothing to the total. -/
def caught : Except Unit Nat → Nat
  | .ok n => n
  | .error _ => 0

/-- `geo_importer.main`: validate the five files; if none is valid
return exit code 1; otherwise run each valid importer inside its own
`try/except` (the JGI ones only when `--skip-large-files` is absent),
accumulate `total_imported`, and return exit code 0.  Result:
`(exit code, total_imported)`. -/
def geoImporterMain (env : ImportEnv) : Nat × Nat :=
  if ¬env.dataDirExists then (1, 0)
  else if ¬(env.proposalValid ∨ env.essDiveValid ∨ env.nmdcValid ∨
            env.jgiBiosampleValid ∨ env.jgiOrganismValid) then (1, 0)
  else
    let t0 : Nat := 0
    let t1 := if env.proposalValid then t0 + caught env.proposalRun else t0
    let t2 := if env.essDiveValid then t1 + caught env.essDiveRun else t1
    let t3 := if env.nmdcValid then t2 + caught env.nmdcRun else t2
    let t5 :=
      if ¬env.skipLargeFiles then
        let t4 := if env.jgiBiosampleValid then t3 + caught env.jgiBiosampleRun else t3
        if env.jgiOrganismValid then t4 + caught env.jgiOrganismRun else t4
      else t3
    (0, t5)

/-! ## Query layer (geo_query.py) -/

/-- The store a `GeoQuery` runs against, modelled from the spec as the
list of persisted canonical documents. -/
abbrev Store := List Doc

/-- Number of documents whose `dataset_id` matches the anchored regex
`^p` (a missing id matches nothing). -/
def countPrefix (store : Store) (p : String) : Nat :=
  (store.filter fun d =>
    match d.dataset_id with
    | some s => p.isPrefixOf s
    | none => false).length

/-- The shape `get_stats` is documented to return (total, per-source
counts, aggregate bounds or `None` on an empty store). -/
structure Stats where
  total : Nat
  dataset_counts : List (String × Nat)
  bounds : Option (PyF × PyF × PyF × PyF)
deriving DecidableEq, Repr

/-- `GeoQuery.get_stats`: computes `total`, `emsl_count`,
`ess_dive_count`, `nmdc_count`, `jgi_count` and the aggregate bounds,
then builds the result dictionary — whose `'proposals'` entry reads the
name `proposal_count`, which is never assigned anywhere in the function
(only `emsl_count` is).  Evaluating the dictionary therefore raises
`NameError` on every call, before anything is returned. -/
def get_stats (store : Store) : Except String Stats :=
  let total := store.length
  let emsl_count := countPrefix store "emsl"
  let ess_dive_count := countPrefix store "ess-dive"
  let nmdc_count := countPrefix store "nmdc:"
  let jgi_count := countPrefix store "jgi:"
  let _ := (total, emsl_count, ess_dive_count, nmdc_count, jgi_count)
  .error "NameError: name 'proposal_count' is not defined"

/-- `GeoQuery.find_by_dataset`: `collection.find({'dataset_id': id})`
with no limit, modelled from the spec's exact-match find primitive. -/
def find_by_dataset (store : Store) (dataset_id : String) : List Doc :=
  store.filter fun d => d.dataset_id = some dataset_id

/-- `find` reads the collection and leaves it unchanged; a gateway call
returns the result list together with the (unmodified) store state. -/
def findByDatasetCall (store : Store) (dataset_id : String) :
    List Doc × Store :=
  (find_by_dataset store dataset_id, store)

/-- The closed polygon ring `GeoQuery.find_in_box` passes to
`$geoWithin`. -/
def boxRing (west south east north : ℚ) : List (ℚ × ℚ) :=
  [(west, south), (east, south), (east, north), (west, north), (west, south)]

/-- Modelled from the spec: the store's `$geoWithin` test for the
axis-aligned rectangle ring `boxRing west south east north` — a
document matches iff its point is finite with longitude ∈ [west, east]
and latitude ∈ [south, north]. -/
def docInBox (west south east north : ℚ) (d : Doc) : Bool :=
  match d.coordinates with
  | (.fin lo, .fin la) =>
      decide (west ≤ lo ∧ lo ≤ east ∧ south ≤ la ∧ la ≤ north)
  | _ => false

/-- `GeoQuery.find_in_box`: the `$geoWithin` rectangle query followed
by `.limit(limit)`. -/
def find_in_box (store : Store) (west south east north : ℚ)
    (limit : ℕ) : List Doc :=
  ((store.filter (docInBox west south east north)).take limit)

/-- The finite point of a document, when it has one. -/
def docPoint (d : Doc) : Option (ℚ × ℚ) :=
  match d.coordinates with
  | (.fin lo, .fin la) => some (lo, la)
  | _ => none

/-- Distance of a document from the query point under the store's
metric `dist` (documents without a finite point never reach the sort,
so their key is irrelevant; 0 is used). -/
def distKey (dist : ℚ × ℚ → ℚ × ℚ → ℚ) (q : ℚ × ℚ) (d : Doc) : ℚ :=
  match docPoint d with
  | some p => dist q p
  | none => 0

/-- `GeoQuery.find_nearby`: the `$near` query with query point
`[lng, lat]` and `$maxDistance distance`, followed by
`.limit(limit)`.  Modelled from the spec's radius-find primitive:
the store returns the documents within `distance` of the point under
its great-circle metric `dist` (an abstract parameter of the model,
since the metric is computed inside the external store), ordered
nearest-first. -/
def find_nearby (dist : ℚ × ℚ → ℚ × ℚ → ℚ) (store : Store)
    (lat lng : ℚ) (distance : ℚ) (limit : ℕ) : List Doc :=
  (((store.filter fun d =>
      match docPoint d with
      | some p => decide (dist (lng, lat) p ≤ distance)
      | none => false).mergeSort
        (fun a b => decide (distKey dist (lng, lat) a ≤ distKey dist (lng, lat) b))).take
    limit)

/-! ## Query CLI `main` (geo_query.py) -/

/-- The CLI action selected by `--action`. -/
inductive QAction where
  | stats | dataset | box | nearby | map
deriving DecidableEq, Repr

/-- The parsed arguments `geo_query.main` receives; optional parameters
default to `None` in argparse, `--distance` defaults to 10000 and
`--limit` to 1000. -/
structure QueryArgs where
  action : QAction
  dataset_id : Option String
  lat : Option ℚ
  lng : Option ℚ
  distance : ℚ := 10000
  west : Option ℚ
  south : Option ℚ
  east : Option ℚ
  north : Option ℚ
  limit : ℕ := 1000
deriving DecidableEq, Repr

/-- The store query `main` dispatches to, with the arguments it passes. -/
inductive QueryExec where
  | stats
  | dataset (id : String)
  | box (west south east north : ℚ) (limit : ℕ)
  | nearby (lat lng : ℚ) (distance : ℚ) (limit : ℕ)
  | allForMap (limit : ℕ)
deriving DecidableEq, Repr

/-- Outcome of the parameter-validation phase of `geo_query.main`:
either `return 1` before any store query (`invalid 1`), or the store
query that gets executed. -/
inductive QOutcome where
  | invalid (exitCode : Nat)
  | proceed (q : QueryExec)
deriving DecidableEq, Repr

/-- The validation/dispatch logic of `geo_query.main`: `dataset`
requires a (truthy, hence non-empty) `--dataset-id`; `box` requires all
of `--west --south --east --north`; `nearby` requires `--lat --lng`;
`stats` and `map` require nothing.  A missing required parameter logs
an error and returns 1 with no query executed. -/
def geoQueryMain (args : QueryArgs) : QOutcome :=
  match args.action with
  | .stats => .proceed .stats
  | .dataset =>
    match args.dataset_id with
    | none => .invalid 1
    | some id => if id = "" then .invalid 1 else .proceed (.dataset id)
  | .box =>
    match args.west, args.south, args.east, args.north with
    | some w, some s, some e, some n =>
        .proceed (.box w s e n args.limit)
    | _, _, _, _ => .invalid 1
  | .nearby =>
    match args.lat, args.lng with
    | some la, some ln => .proceed (.nearby la ln args.distance args.limit)
    | _, _ => .invalid 1
  | .map => .proceed (.allForMap args.limit)

/-! ## Theorems -/

/-- C10: every proposal item whose latitude or longitude parses to
exactly 0.0 — a valid in-range coordinate — is skipped by the proposal
adapter (the `if not (latitude and longitude)` truthiness test), even
though both coordinate fields are present and numeric. -/
theorem proposal_zero_coordinate_dropped (item : ProposalItem) (la lo : PyF)
    (hla : pyFloat item.latitude = .ok la)
    (hlo : pyFloat item.longitude = .ok lo)
    (hz : la = .fin 0 ∨ lo = .fin 0) :
    adaptProposal item = none := by
  unfold adaptProposal
  rw [hla, hlo]
  rcases hz with hz | hz <;> subst hz <;>
    simp [PyF.truthy]

theorem proposal_zero_coordinate_dropped_witness :
    adaptProposal ⟨.numStr 0, .numStr 46, some "P1", none, none⟩ = none :=
  proposal_zero_coordinate_dropped _ (.fin 0) (.fin 46) rfl rfl (Or.inl rfl)

/-- C2 counterexample: the proposal item with latitude 0.0 and
longitude 10.0 has both coordinate fields present, numeric, finite and
in range, yet the adapter emits no record for it. -/
theorem proposal_valid_zero_dropped_cx :
    adaptProposal ⟨.numStr 0, .numStr 10, some "P1", none, none⟩ = none ∧
      specValidCoords (.fin 10, .fin 0) := by
  exact ⟨rfl, by norm_num [specValidCoords]⟩

/-- C2 (amended): for every proposal item whose coordinate fields parse
to finite numbers that are both nonzero, the adapter emits exactly one
record, whose stored coordinate pair is exactly the input's
`(longitude, latitude)` in that order, tagged `system_name = "EMSL"`;
no transformation or rounding is applied. -/
theorem proposal_exact_passthrough (item : ProposalItem) (la lo : ℚ)
    (hla : pyFloat item.latitude = .ok (.fin la))
    (hlo : pyFloat item.longitude = .ok (.fin lo))
    (hla0 : la ≠ 0) (hlo0 : lo ≠ 0) :
    adaptProposal item = some
      { dataset_id := item.proposal_id
        system_name := "EMSL"
        coordinates := (.fin lo, .fin la)
        metadata :=
          [("sampling_set", .s item.sampling_set),
           ("description", .s item.description),
           ("source", .s (some "project_locations"))] } := by
  unfold adaptProposal
  rw [hla, hlo]
  simp [PyF.truthy, hla0, hlo0]

/-- The spec's ingestion scenario: one proposal item with latitude 46.3
and longitude -119.3 yields exactly one record with coordinates
(-119.3, 46.3) and the proposal tag. -/
theorem proposal_exact_passthrough_witness :
    adaptProposal ⟨.numStr (463/10), .numStr (-1193/10), some "P1", none, none⟩
      = some
        { dataset_id := some "P1"
          system_name := "EMSL"
          coordinates := (.fin (-1193/10), .fin (463/10))
          metadata :=
            [("sampling_set", .s none),
             ("description", .s none),
             ("source", .s (some "project_locations"))] } :=
  proposal_exact_passthrough _ (463/10) (-1193/10) rfl rfl
    (by norm_num) (by norm_num)

/-- C1 counterexample: the proposal adapter builds and hands to the
store a document whose coordinates are far out of range (longitude and
latitude both 200), and also builds a document for an item whose
latitude is NaN — no range check or NaN check exists on the proposal
path. -/
theorem adapters_range_unchecked_cx :
    adaptProposal ⟨.numStr 200, .numStr 200, some "P1", none, none⟩
        = some
          { dataset_id := some "P1"
            system_name := "EMSL"
            coordinates := (.fin 200, .fin 200)
            metadata :=
              [("sampling_set", .s none),
               ("description", .s none),
               ("source", .s (some "project_locations"))] } ∧
      ¬ specValidCoords (.fin 200, .fin 200) ∧
      (adaptProposal ⟨.nanVal, .numStr 10, some "P2", none, none⟩).isSome
        = true := by
  refine ⟨rfl, ?_, rfl⟩
  norm_num [specValidCoords]

/-- C1 (amended): a record is built only when both coordinate values
parse to numbers — the proposal adapter emits a record iff both fields
`float` successfully and both floats are truthy (nonzero, NaN counting
as truthy), and every record the ESS-DIVE adapter emits carries finite
parsed coordinates (missing, non-numeric and NaN coordinates are
dropped); no adapter checks the coordinate ranges. -/
theorem adapters_parse_only_guard (item : ProposalItem) (row : EssDiveRow) :
    ((adaptProposal item).isSome = true ↔
      ∃ la lo, pyFloat item.latitude = .ok la ∧
        pyFloat item.longitude = .ok lo ∧
        la.truthy = true ∧ lo.truthy = true) ∧
    (∀ d, adaptEssDive row = some d →
      ∃ la lo, pyFloat row.centroid_latitude = .ok (.fin la) ∧
        pyFloat row.centroid_longitude = .ok (.fin lo) ∧
        d.coordinates = (.fin lo, .fin la)) := by
  constructor
  · unfold adaptProposal
    cases hla : pyFloat item.latitude with
    | error e => simp
    | ok la =>
      cases hlo : pyFloat item.longitude with
      | error e => simp
      | ok lo =>
        by_cases h : la.truthy ∧ lo.truthy
        · simp [h.1, h.2]
        · simp only [h, not_false_eq_true, if_pos, Option.isSome_none,
            Bool.false_eq_true, false_iff]
          rintro ⟨la', lo', h1, h2, h3, h4⟩
          cases h1; cases h2
          exact h ⟨h3, h4⟩
  · intro d hd
    unfold adaptEssDive at hd
    cases hla : pyFloat row.centroid_latitude with
    | error e => rw [hla] at hd; cases hd
    | ok la =>
      cases hlo : pyFloat row.centroid_longitude with
      | error e => rw [hla, hlo] at hd; cases hd
      | ok lo =>
        rw [hla, hlo] at hd
        cases la with
        | nan => simp [PyF.isna] at hd
        | fin qa =>
          cases lo with
          | nan => simp [PyF.isna] at hd
          | fin qb =>
            simp only [PyF.isna, Bool.or_self, or_self, if_false,
              Bool.false_eq_true] at hd
            cases hrid : essRowId row.row_id with
            | error e => rw [hrid] at hd; cases hd
            | ok rid =>
              rw [hrid] at hd
              cases hd
              exact ⟨qa, qb, rfl, rfl, rfl⟩

theorem adapters_parse_only_guard_witness :
    ∃ la lo,
      pyFloat (RawVal.numStr 1) = .ok (.fin la) ∧
      pyFloat (RawVal.numStr 2) = .ok (.fin lo) ∧
      (Doc.mk (some "E") "ESSDIVE" (.fin 2, .fin 1)
        [("source", .s (some "ESS-DIVE")), ("row_id", .i none)]).coordinates
        = (.fin lo, .fin la) :=
  (adapters_parse_only_guard ⟨.numStr 3, .numStr 4, some "P", none, none⟩
      ⟨.numStr 1, .numStr 2, some "E", .missing⟩).2
    (Doc.mk (some "E") "ESSDIVE" (.fin 2, .fin 1)
      [("source", .s (some "ESS-DIVE")), ("row_id", .i none)]) rfl

/-- C7: a row the adapter cannot convert is skipped without aborting
the rest of its file — for the proposal and NMDC adapters, running the
per-row loop over a list containing a bad row yields exactly the
documents of the rows before it followed by the documents of the rows
after it. -/
theorem adapters_skip_bad_rows
    (xs ys : List ProposalItem) (bad : ProposalItem)
    (rs ts : List NmdcRow) (badRow : NmdcRow)
    (hb : adaptProposal bad = none)
    (hbr : adaptNmdc badRow = none) :
    importProposalDocs (xs ++ bad :: ys)
        = importProposalDocs xs ++ importProposalDocs ys ∧
      importNmdcDocs (rs ++ badRow :: ts)
        = importNmdcDocs rs ++ importNmdcDocs ts := by
  constructor <;>
    simp [importProposalDocs, importNmdcDocs, List.filterMap_append,
      List.filterMap_cons, hb, hbr]

theorem adapters_skip_bad_rows_witness :
    importProposalDocs
        [⟨.numStr 1, .numStr 2, some "A", none, none⟩,
         ⟨.badStr, .numStr 2, some "B", none, none⟩,
         ⟨.numStr 3, .numStr 4, some "C", none, none⟩]
      = importProposalDocs [⟨.numStr 1, .numStr 2, some "A", none, none⟩]
        ++ importProposalDocs [⟨.numStr 3, .numStr 4, some "C", none, none⟩] ∧
    importNmdcDocs
        [⟨.numStr 5, .numStr 6, some "N1"⟩,
         ⟨.missing, .numStr 6, some "N2"⟩,
         ⟨.numStr 7, .numStr 8, some "N3"⟩]
      = importNmdcDocs [⟨.numStr 5, .numStr 6, some "N1"⟩]
        ++ importNmdcDocs [⟨.numStr 7, .numStr 8, some "N3"⟩] :=
  adapters_skip_bad_rows
    [⟨.numStr 1, .numStr 2, some "A", none, none⟩]
    [⟨.numStr 3, .numStr 4, some "C", none, none⟩]
    ⟨.badStr, .numStr 2, some "B", none, none⟩
    [⟨.numStr 5, .numStr 6, some "N1"⟩]
    [⟨.numStr 7, .numStr 8, some "N3"⟩]
    ⟨.missing, .numStr 6, some "N2"⟩
    rfl rfl

/-- C4: with the data directory present and large files not skipped,
`geo_importer.main` exits 1 with nothing imported when no configured
source file is valid, and otherwise exits 0 with a total equal to the
sum of the per-source counts — each source contributing its count when
its import returned and 0 when it raised (the exception is caught), so
one source's failure never affects the others' contributions. -/
theorem importer_main_isolated_sources (env : ImportEnv)
    (hdir : env.dataDirExists = true)
    (hskip : env.skipLargeFiles = false) :
    (¬(env.proposalValid ∨ env.essDiveValid ∨ env.nmdcValid ∨
        env.jgiBiosampleValid ∨ env.jgiOrganismValid) →
      geoImporterMain env = (1, 0)) ∧
    ((env.proposalValid ∨ env.essDiveValid ∨ env.nmdcValid ∨
        env.jgiBiosampleValid ∨ env.jgiOrganismValid) →
      geoImporterMain env =
        (0, (if env.proposalValid then caught env.proposalRun else 0) +
            (if env.essDiveValid then caught env.essDiveRun else 0) +
            (if env.nmdcValid then caught env.nmdcRun else 0) +
            (if env.jgiBiosampleValid then caught env.jgiBiosampleRun else 0) +
            (if env.jgiOrganismValid then caught env.jgiOrganismRun else 0))) := by
  obtain ⟨dd, pv, ev, nv, bv, ov, pr, er, nr, br, og, sk⟩ := env
  simp only at hdir hskip
  subst hdir hskip
  constructor
  · intro hnone
    simp only [geoImporterMain]
    simp_all
  · intro hsome
    simp only [geoImporterMain]
    cases pv <;> cases ev <;> cases nv <;> cases bv <;> cases ov <;>
      simp_all

/-- A run where only the proposal and NMDC sources are valid, the
proposal import raises, and the NMDC import returns 7: the run exits 0
with total 7. -/
theorem importer_main_isolated_sources_witness :
    geoImporterMain
        ⟨true, true, false, true, false, false,
         .error (), .ok 3, .ok 7, .ok 100, .ok 100, false⟩ = (0, 7) ∧
      geoImporterMain
        ⟨true, false, false, false, false, false,
         .error (), .ok 3, .ok 7, .ok 100, .ok 100, false⟩ = (1, 0) := by
  constructor
  · have h :=
      (importer_main_isolated_sources
        ⟨true, true, false, true, false, false,
         .error (), .ok 3, .ok 7, .ok 100, .ok 100, false⟩ rfl rfl).2
        (Or.inl rfl)
    simpa [caught] using h
  · exact
      (importer_main_isolated_sources
        ⟨true, false, false, false, false, false,
         .error (), .ok 3, .ok 7, .ok 100, .ok 100, false⟩ rfl rfl).1
        (by simp)

/-- C3: `get_stats` never returns the statistics it is documented to
produce — on every store (the spec's empty-store scenario included) the
result dictionary's `'proposals'` entry reads the unassigned name
`proposal_count`, so the call raises `NameError` instead of returning
`total = 0` with a "no data" bounds value. -/
theorem get_stats_always_raises (store : Store) :
    get_stats store =
      Except.error "NameError: name 'proposal_count' is not defined" := rfl

/-- C9: `find_by_dataset` is an exact-match lookup — a document is in
its result iff it is in the store and its `dataset_id` equals the
queried id, with no record excluded by any limit — and a repeated call
against the store state left by a first call returns the identical
result list. -/
theorem find_by_dataset_exact_idempotent (store : Store) (id : String) :
    (∀ d, d ∈ find_by_dataset store id ↔
        d ∈ store ∧ d.dataset_id = some id) ∧
      (findByDatasetCall (findByDatasetCall store id).2 id).1
        = (findByDatasetCall store id).1 := by
  refine ⟨fun d => ?_, rfl⟩
  simp [find_by_dataset, List.mem_filter]

/-- C8: `geo_query.main` validates per-action required parameters
before touching the store — a missing dataset id, any missing box edge,
or a missing lat/lng makes it return exit code 1 with no store query
executed and no default substituted. -/
theorem query_main_requires_params (args : QueryArgs) :
    (args.action = .dataset → args.dataset_id = none →
      geoQueryMain args = .invalid 1) ∧
    (args.action = .box →
      (args.west = none ∨ args.south = none ∨ args.east = none ∨
        args.north = none) →
      geoQueryMain args = .invalid 1) ∧
    (args.action = .nearby → (args.lat = none ∨ args.lng = none) →
      geoQueryMain args = .invalid 1) := by
  obtain ⟨ac, did, lat, lng, dist, west, south, east, north, lim⟩ := args
  refine ⟨fun ha hid => ?_, fun ha hbox => ?_, fun ha hpt => ?_⟩ <;>
    simp only at ha <;> subst ha
  · simp only at hid
    subst hid
    simp [geoQueryMain]
  · rcases west with _ | w <;> rcases south with _ | s <;>
      rcases east with _ | e <;> rcases north with _ | n <;>
      simp_all [geoQueryMain]
  · rcases lat with _ | la <;> rcases lng with _ | ln <;>
      simp_all [geoQueryMain]

theorem query_main_requires_params_witness :
    geoQueryMain ⟨.dataset, none, none, none, 10000,
        none, none, none, none, 1000⟩ = .invalid 1 ∧
    geoQueryMain ⟨.box, none, none, none, 10000,
        some 0, some 0, some 1, none, 1000⟩ = .invalid 1 ∧
    geoQueryMain ⟨.nearby, none, some 5, none, 10000,
        none, none, none, none, 1000⟩ = .invalid 1 :=
  ⟨(query_main_requires_params _).1 rfl rfl,
   (query_main_requires_params _).2.1 rfl (Or.inr (Or.inr (Or.inr rfl))),
   (query_main_requires_params _).2.2 rfl (Or.inr rfl)⟩

/-- C5: every document returned by `find_in_box` has a finite point
with longitude in [west, east] and latitude in [south, north], and at
most `limit` documents are returned. -/
theorem find_in_box_within_bounds (store : Store)
    (west south east north : ℚ) (limit : ℕ) :
    (∀ d ∈ find_in_box store west south east north limit,
      ∃ lo la, d.coordinates = (.fin lo, .fin la) ∧
        west ≤ lo ∧ lo ≤ east ∧ south ≤ la ∧ la ≤ north) ∧
    (find_in_box store west south east north limit).length ≤ limit := by
  refine ⟨fun d hd => ?_, List.length_take_le _ _⟩
  have hmem : d ∈ store.filter (docInBox west south east north) :=
    List.mem_of_mem_take hd
  have hp := (List.mem_filter.mp hmem).2
  unfold docInBox at hp
  rcases hco : d.coordinates with ⟨x, y⟩
  rw [hco] at hp
  cases x with
  | nan => cases hp
  | fin lo =>
    cases y with
    | nan => cases hp
    | fin la =>
      have h := of_decide_eq_true hp
      exact ⟨lo, la, rfl, h.1, h.2.1, h.2.2.1, h.2.2.2⟩

theorem find_in_box_within_bounds_witness :
    (∃ lo la,
      (Doc.mk (some "D") "NMDC" (.fin 1, .fin 2) []).coordinates
          = (.fin lo, .fin la) ∧
        (0 : ℚ) ≤ lo ∧ lo ≤ 3 ∧ (0 : ℚ) ≤ la ∧ la ≤ 3) ∧
    (find_in_box [Doc.mk (some "D") "NMDC" (.fin 1, .fin 2) []]
        0 0 3 3 5).length ≤ 5 :=
  ⟨(find_in_box_within_bounds
      [Doc.mk (some "D") "NMDC" (.fin 1, .fin 2) []] 0 0 3 3 5).1
      (Doc.mk (some "D") "NMDC" (.fin 1, .fin 2) []) (by decide),
   (find_in_box_within_bounds
      [Doc.mk (some "D") "NMDC" (.fin 1, .fin 2) []] 0 0 3 3 5).2⟩

/-- C6: under the store's distance function `dist` (the great-circle
metric, abstract in the model), every document returned by
`find_nearby` has a finite point within `distance` of the query point,
the result list is sorted ascending by distance from the query point,
and at most `limit` documents are returned. -/
theorem find_nearby_sorted_within_distance
    (dist : ℚ × ℚ → ℚ × ℚ → ℚ) (store : Store) (lat lng : ℚ)
    (distance : ℚ) (limit : ℕ) :
    (∀ d ∈ find_nearby dist store lat lng distance limit,
      ∃ p, docPoint d = some p ∧ dist (lng, lat) p ≤ distance) ∧
    (find_nearby dist store lat lng distance limit).Pairwise
      (fun a b => distKey dist (lng, lat) a ≤ distKey dist (lng, lat) b) ∧
    (find_nearby dist store lat lng distance limit).length ≤ limit := by
  refine ⟨fun d hd => ?_, ?_, List.length_take_le _ _⟩
  · have h1 := List.mem_of_mem_take hd
    rw [List.mem_mergeSort] at h1
    have hp := (List.mem_filter.mp h1).2
    cases hdp : docPoint d with
    | none => rw [hdp] at hp; cases hp
    | some p =>
      rw [hdp] at hp
      exact ⟨p, rfl, of_decide_eq_true hp⟩
  · apply List.Pairwise.sublist (List.take_sublist _ _)
    have hs :=
      @List.sorted_mergeSort Doc
        (fun a b =>
          decide (distKey dist (lng, lat) a ≤ distKey dist (lng, lat) b))
        (fun a b c hab hbc =>
          decide_eq_true
            (le_trans (of_decide_eq_true hab) (of_decide_eq_true hbc)))
        (fun a b => by
          rcases le_total (distKey dist (lng, lat) a)
              (distKey dist (lng, lat) b) with h | h <;>
            simp [h])
        (store.filter fun d =>
          match docPoint d with
          | some p => decide (dist (lng, lat) p ≤ distance)
          | none => false)
    exact hs.imp fun h => of_decide_eq_true h

/-- Squared Euclidean distance on ℚ², standing in for the store
metric in the witness run. -/
def sqDist (p q : ℚ × ℚ) : ℚ :=
  (p.1 - q.1) * (p.1 - q.1) + (p.2 - q.2) * (p.2 - q.2)

theorem find_nearby_sorted_within_distance_witness :
    (∃ p, docPoint (Doc.mk (some "A") "EMSL" (.fin 1, .fin 1) []) = some p ∧
        sqDist (0, 0) p ≤ 30) ∧
    (find_nearby sqDist
        [Doc.mk (some "A") "EMSL" (.fin 1, .fin 1) [],
         Doc.mk (some "B") "NMDC" (.fin 3, .fin 4) []]
        0 0 30 2).Pairwise
      (fun a b => distKey sqDist (0, 0) a ≤ distKey sqDist (0, 0) b) ∧
    (find_nearby sqDist
        [Doc.mk (some "A") "EMSL" (.fin 1, .fin 1) [],
         Doc.mk (some "B") "NMDC" (.fin 3, .fin 4) []]
        0 0 30 2).length ≤ 2 :=
  ⟨(find_nearby_sorted_within_distance sqDist
      [Doc.mk (some "A") "EMSL" (.fin 1, .fin 1) [],
       Doc.mk (some "B") "NMDC" (.fin 3, .fin 4) []] 0 0 30 2).1
      (Doc.mk (some "A") "EMSL" (.fin 1, .fin 1) [])
      (by
        unfold find_nearby
        rw [List.take_of_length_le
            (by
              rw [List.length_mergeSort]
              exact (List.length_filter_le _ _).trans (by norm_num)),
          List.mem_mergeSort]
        refine List.mem_filter.mpr ⟨List.mem_cons_self _ _, ?_⟩
        show decide (sqDist (0, 0) ((1 : ℚ), (1 : ℚ)) ≤ 30) = true
        rw [decide_eq_true_eq]
        norm_num [sqDist]),
   (find_nearby_sorted_within_distance sqDist
      [Doc.mk (some "A") "EMSL" (.fin 1, .fin 1) [],
       Doc.mk (some "B") "NMDC" (.fin 3, .fin 4) []] 0 0 30 2).2.1,
   (find_nearby_sorted_within_distance sqDist
      [Doc.mk (some "A") "EMSL" (.fin 1, .fin 1) [],
       Doc.mk (some "B") "NMDC" (.fin 3, .fin 4) []] 0 0 30 2).2.2⟩

end Bertron
